import Mathlib

/-!
Verification development for the fermipy flux-sensitivity repository.

Shallow embedding of three source files:
  * `fermipy/defaults.py` — configuration-default dictionaries;
  * `fermipy/scripts/flux_sensitivity.py` — the `run_flux_sensitivity` driver;
  * `fermipy/plotting.py` — the `PowerNorm` colour normalisation.

Collaborator code that lives outside these files (the `SensitivityCalc`
solver, `LTCube` loading, the HEALPix pixelisation, astropy tables/FITS)
is abstracted behind an explicit environment record; the driver itself is
translated statement by statement.
-/

namespace Defaults

/-- A Python value as it appears inside the option tuples of
`fermipy/defaults.py`: `None`, strings, booleans, integers, floats
(modelled as rationals) and bare Python types such as `list`. -/
inductive PyVal where
  | none
  | str (s : String)
  | bool (b : Bool)
  | int (n : Int)
  | rat (q : ℚ)
  | pytype
  deriving DecidableEq, Repr

/-- One option entry: the dictionary key together with the tuple of values
standing on the right-hand side, in order. -/
abbrev OptEntry := String × List PyVal

/-- `defaults.data` (lines 9-13). -/
def data : List OptEntry :=
  [("evfile", [.none, .str "Input FT1 file."]),
   ("scfile", [.none, .str "Input FT2 file."]),
   ("ltcube", [.none, .str "Input LT cube file (optional)."])]

/-- `defaults.selection` (lines 16-34). -/
def selection : List OptEntry :=
  [("emin", [.none, .str "Minimum Energy"]),
   ("emax", [.none, .str "Maximum Energy"]),
   ("tmin", [.none, .str "Minimum time (MET)."]),
   ("tmax", [.none, .str "Maximum time (MET)."]),
   ("zmax", [.none, .str "Maximum zenith angle."]),
   ("evclass", [.none, .str "Event class selection."]),
   ("evtype", [.none, .str "Event type selection."]),
   ("convtype", [.none, .str "Conversion type selection."]),
   ("target", [.none, .str "Choose an object name that will define the center of the ROI.  This option takes precendence over ra/dec."]),
   ("ra", [.none, .str ""]),
   ("dec", [.none, .str ""]),
   ("glat", [.none, .str ""]),
   ("glon", [.none, .str ""]),
   ("radius", [.none, .str ""]),
   ("filter", [.str "DATA_QUAL>0 && LAT_CONFIG==1", .str ""]),
   ("roicut", [.str "no", .str ""])]

/-- `defaults.model` (lines 37-55). -/
def model : List OptEntry :=
  [("src_radius", [.none, .str "Set the maximum distance for inclusion of sources in the ROI model.  Selects all sources within a circle of this radius centered on the ROI.  If none then no selection is applied.  This selection will be ORed with sources passing the cut on src_roiwidth."]),
   ("src_roiwidth", [.none, .str "Select sources within a box of RxR centered on the ROI.  If none then no cut is applied."]),
   ("isodiff", [.none, .str "Set the isotropic template."]),
   ("galdiff", [.none, .str "Set the galactic IEM mapcube."]),
   ("limbdiff", [.none, .str ""]),
   ("sources", [.none, .str "", .pytype]),
   ("extdir", [.str "Extended_archive_v14", .str ""]),
   ("catalogs", [.none, .str "", .pytype]),
   ("min_ts", [.none, .str ""]),
   ("min_flux", [.none, .str ""]),
   ("remove_duplicates", [.bool false, .str "Remove duplicate catalog sources."])]

/-- `defaults.gtlike` (lines 58-63). -/
def gtlike : List OptEntry :=
  [("irfs", [.none, .str ""]),
   ("edisp", [.bool true, .str ""]),
   ("edisp_disable", [.none, .str "Provide a list of sources for which the edisp correction should be disabled.", .pytype]),
   ("likelihood", [.str "binned", .str ""])]

/-- `defaults.binning` (lines 66-79). -/
def binning : List OptEntry :=
  [("proj", [.str "AIT", .str ""]),
   ("coordsys", [.str "CEL", .str ""]),
   ("npix", [.none, .str "Number of spatial bins.  If none this will be inferred from roiwidth and binsz."]),
   ("roiwidth", [.rat 10, .str "Set the width of the ROI in degrees.  If both roiwidth and binsz are given the roiwidth will be rounded up to be a multiple of binsz."]),
   ("binsz", [.rat (1/10), .str "Set the bin size in degrees."]),
   ("binsperdec", [.int 8, .str "Set the number of energy bins per decade."]),
   ("enumbins", [.none, .str "Number of energy bins.  If none this will be inferred from energy range and binsperdec."])]

/-- `defaults.fileio` (lines 82-90). -/
def fileio : List OptEntry :=
  [("outdir", [.none, .str "Set the name of the output directory."]),
   ("scratchdir", [.str "/scratch", .str ""]),
   ("workdir", [.none, .str "Override the working directory."]),
   ("logfile", [.none, .str ""]),
   ("saveoutput", [.bool true, .str "Save intermediate FITS data products."]),
   ("stageoutput", [.bool true, .str "Stage output to an intermediate working directory."])]

/-- `defaults.logging` (lines 92-95). -/
def logging : List OptEntry :=
  [("chatter", [.int 3, .str "Set the chatter parameter of the STs."]),
   ("verbosity", [.int 3, .str ""])]

/-- `defaults.optimizer` (lines 98-106). -/
def optimizer : List OptEntry :=
  [("optimizer", [.str "MINUIT", .str "Set the optimization algorithm to use when maximizing the likelihood function."]),
   ("tol", [.rat (1/10000), .str "Set the optimizer tolerance."]),
   ("retries", [.int 3, .str "Set the number of times to retry the fit."]),
   ("min_fit_quality", [.int 3, .str "Set the minimum fit quality."]),
   ("verbosity", [.int 0, .str ""])]

/-- `defaults.roiopt` (lines 112-117). -/
def roiopt : List OptEntry :=
  [("free_source_radius", [.none, .str ""]),
   ("free_source_roi_margin", [.none, .str ""]),
   ("free_sources", [.none, .str ""]),
   ("free_source_ts_threshold", [.none, .str ""])]

/-- `defaults.residmap` (lines 120-122). -/
def residmap : List OptEntry :=
  [("models", [.none, .str "", .pytype])]

/-- The ten configuration dictionaries named by the claim, in source order. -/
def allDicts : List (List OptEntry) :=
  [data, selection, model, gtlike, binning, fileio, logging, optimizer, roiopt, residmap]

/-- Shape check on one option tuple: either `(default, description)` or
`(default, description, container_type)` where the description is a string
and the third element, when present, is a bare Python type. -/
def wellShaped (e : List PyVal) : Bool :=
  match e with
  | [_, .str _] => true
  | [_, .str _, .pytype] => true
  | _ => false

end Defaults

namespace FluxSens

noncomputable section

open Real

/-- `np.linspace(a, b, num)` evaluated at index `i`:
`a + i * (b - a) / (num - 1)`. -/
def linspace (a b : ℝ) (num i : ℕ) : ℝ :=
  a + (i : ℝ) * (b - a) / ((num - 1 : ℕ) : ℝ)

/-- `log_ebins[i]` from line 105-106 of the script:
`np.linspace(np.log10(emin), np.log10(emax), nbin + 1)`. -/
def log_ebin (emin emax : ℝ) (nbin i : ℕ) : ℝ :=
  linspace (Real.logb 10 emin) (Real.logb 10 emax) (nbin + 1) i

/-- `ebins[i] = 10 ** log_ebins[i]` (line 107). -/
def ebin (emin emax : ℝ) (nbin i : ℕ) : ℝ :=
  (10 : ℝ) ^ (log_ebin emin emax nbin i)

/-- Modelled from the spec: `fermipy.utils.edge_to_center` is not under
`src/`; the spec states that bin centers are the geometric mean of
adjacent edges, so on the logarithmic axis `edge_to_center` is the
arithmetic midpoint of consecutive entries. -/
def edge_to_center (x : ℕ → ℝ) (i : ℕ) : ℝ :=
  (x i + x (i + 1)) / 2

/-- `ectr[i] = np.exp(utils.edge_to_center(np.log(ebins)))[i]` (line 108). -/
def ectr (emin emax : ℝ) (nbin i : ℕ) : ℝ :=
  Real.exp (edge_to_center (fun k => Real.log (ebin emin emax nbin k)) i)

/-- The edge array as a list, `ebins` of the script. -/
def ebinsList (emin emax : ℝ) (nbin : ℕ) : List ℝ :=
  (List.range (nbin + 1)).map (ebin emin emax nbin)

/-- The bin-center array as a list, `ectr` of the script. -/
def ectrList (emin emax : ℝ) (nbin : ℕ) : List ℝ :=
  (List.range nbin).map (ectr emin emax nbin)

/-- A sky direction: the two angular coordinates of
`SkyCoord(glon, glat, unit='deg', frame='galactic')`. -/
structure SkyDir where
  glon : ℝ
  glat : ℝ
  deriving DecidableEq

/-- The state of a `LTCube` object: its `_counts` array (flattened) and
the recorded `tstart`/`tstop` timestamps. -/
structure LTCube where
  counts : List ℝ
  tstart : ℝ
  tstop  : ℝ

/-- A `spectrum.PowerLaw([p0, p1], scale)` instance: the two parameters
and the energy scale. -/
structure PowerLaw where
  p0 : ℝ
  p1 : ℝ
  scale : ℝ

/-- Per-bin output record of `SensitivityCalc.diff_flux_threshold` for a
single direction: the keys of the returned dict that the script reads. -/
structure DiffOut where
  e_ref : List ℝ
  flux : List ℝ
  eflux : List ℝ
  dnde : List ℝ
  e2dnde : List ℝ
  npred : List ℝ

/-- Scalar part of the `SensitivityCalc.int_flux_threshold` output for a
single direction: the keys read when filling a row of `tab_int`. -/
structure IntScalars where
  e_min : ℝ
  e_ref : ℝ
  e_max : ℝ
  flux : ℝ
  eflux : ℝ
  dnde : ℝ
  e2dnde : ℝ
  npred : ℝ

/-- The per-bin breakdown `o['bins']` of an integral solve: one list per
quantity column, read when filling a row of `tab_int_ebin`. -/
structure IntBins where
  e_min : List ℝ
  e_ref : List ℝ
  e_max : List ℝ
  flux : List ℝ
  eflux : List ℝ
  dnde : List ℝ
  e2dnde : List ℝ
  npred : List ℝ

/-- Full output of one integral solve. -/
structure IntOut where
  scalars : IntScalars
  bins : IntBins

/-- Inputs handed to `SensitivityCalc` (line 143-145) that the claims
depend on; the diffuse/isotropic templates are opaque to every claim and
are carried by the environment instead. -/
structure SCInputs where
  ltc : LTCube
  ebins : List ℝ

/-- Which source line issued a Threshold Solver call. -/
inductive CallSite where
  | mapDiff
  | mapInt
  | targetDiff
  | scanInt (g : ℝ)

/-- Solver invocation mode. -/
inductive CallMode where
  | diff
  | int
  deriving DecidableEq

/-- One recorded invocation of the Threshold Solver: the directions it
was evaluated at, the spectral function, and the detection-criterion pair
`(ts_thresh, min_counts)` the call received. -/
structure CallRec where
  site : CallSite
  mode : CallMode
  dirs : List SkyDir
  fn : PowerLaw
  ts_thresh : ℝ
  min_counts : ℝ

/-- The collaborator environment: `LTCube` construction, the HEALPix
pixel-center service, and the per-direction Threshold Solver.  The
vectorised solver calls of the script are the per-direction solver mapped
over the direction list, as §4.4 of the spec describes the aggregation. -/
structure Env where
  createFromObsTime : ℝ → LTCube
  loadLTCube : String → LTCube
  pixelDirs : ℕ → List SkyDir
  diffSolve : SCInputs → SkyDir → PowerLaw → ℝ → ℝ → DiffOut
  intSolve : SCInputs → SkyDir → PowerLaw → ℝ → ℝ → IntOut

/-- The keyword arguments of `run_flux_sensitivity` that drive the
claims (paths of the diffuse templates are opaque and omitted). -/
structure Config where
  index : ℝ
  emin : ℝ
  emax : ℝ
  nbin : ℕ
  glon : ℝ
  glat : ℝ
  ltcube : Option String
  obs_time_yr : Option ℝ
  min_counts : ℝ
  ts_thresh : ℝ
  nside : Option ℕ

end

end FluxSens

namespace FluxSens

noncomputable section

/-- The target direction `c = SkyCoord(glon, glat, ...)` (line 110). -/
def target (cfg : Config) : SkyDir := ⟨cfg.glon, cfg.glat⟩

/-- `fn = spectrum.PowerLaw([1E-13, -index], scale=1E3)` (line 103). -/
def fn0 (cfg : Config) : PowerLaw := ⟨1e-13, -cfg.index, 1e3⟩

/-- The power law rebuilt for each step of the index scan (line 223):
`spectrum.PowerLaw([1E-13, -g], scale=10**3.5)`. -/
def scanFn (g : ℝ) : PowerLaw := ⟨1e-13, -g, (10 : ℝ) ^ (3.5 : ℝ)⟩

/-- `index = np.linspace(1.0, 5.0, 4 * 4 + 1)` (line 220). -/
def scanIndices : List ℝ :=
  (List.range 17).map (fun i => linspace 1 5 17 i)

/-- Lines 112-122: obtain the livetime cube.  `none` is the
`raise Exception('No observation time defined.')` branch; in the branch
where both a path and an observation time are given, `ltc._counts *= ...`
multiplies each entry of the loaded cube's counts in place by
`obs_time_yr * 365 * 24 * 3600. / (ltc.tstop - ltc.tstart)`. -/
def ltcubeStep (cfg : Config) (env : Env) : Option LTCube :=
  match cfg.ltcube with
  | none =>
    match cfg.obs_time_yr with
    | none => none
    | some t => some (env.createFromObsTime (t * 365 * 24 * 3600))
  | some path =>
    let ltc := env.loadLTCube path
    match cfg.obs_time_yr with
    | none => some ltc
    | some t =>
      some { ltc with
             counts := ltc.counts.map
               (fun c => c * (t * 365 * 24 * 3600 / (ltc.tstop - ltc.tstart))) }

/-- `numpy` transpose of the stacked per-direction column `f`:
`o[key].T` has one row per energy bin, one entry per direction. -/
def stackT (outs : List DiffOut) (f : DiffOut → List ℝ) (nbin : ℕ) :
    List (List ℝ) :=
  (List.range nbin).map (fun b => outs.map (fun o => (f o).getD b 0))

/-- The differential table `tab_diff` (lines 175-188), by column. -/
structure TabDiff where
  e_min : List ℝ
  e_ref : List ℝ
  e_max : List ℝ
  flux : List ℝ
  eflux : List ℝ
  dnde : List ℝ
  e2dnde : List ℝ
  npred : List ℝ

/-- One row of `tab_int`: the scanned index followed by the scalar
integral quantities (lines 225-231). -/
structure IntRow where
  index : ℝ
  out : IntScalars

/-- One row of `tab_int_ebin`: the scanned index followed by the per-bin
breakdown (lines 233-238). -/
structure EbinRow where
  index : ℝ
  bins : IntBins

/-- Payload of one section of the output FITS file. -/
inductive HduData where
  | primary
  | tableDiff (t : TabDiff)
  | tableInt (rows : List IntRow)
  | tableIntEbin (rows : List EbinRow)
  | image2d (d : List (List ℝ))
  | image1d (d : List ℝ)

/-- A named section of the output file. -/
abbrev Hdu := String × HduData

/-- Number of data values stored in a section's array. -/
def hduValueCount : HduData → ℕ
  | .image2d d => (d.map List.length).sum
  | .image1d d => d.length
  | _ => 0

/-- The sky-map block (lines 147-172).  When `nside` is set the script
builds the four HEALPix maps and issues one vectorised differential solve
and one vectorised integral solve over all pixel-center directions;
otherwise the four maps stay `None` and no solve is issued. -/
def mapStep (cfg : Config) (env : Env) (sc : SCInputs) :
    (Option (List (List ℝ)) × Option (List (List ℝ)) ×
     Option (List ℝ) × Option (List ℝ)) × List CallRec :=
  match cfg.nside with
  | none => ((none, none, none, none), [])
  | some n =>
    let dirs := env.pixelDirs n
    let douts := dirs.map
      (fun d => env.diffSolve sc d (fn0 cfg) cfg.ts_thresh cfg.min_counts)
    let iouts := dirs.map
      (fun d => env.intSolve sc d (fn0 cfg) cfg.ts_thresh cfg.min_counts)
    (((some (stackT douts (·.flux) cfg.nbin)),
      (some (stackT douts (·.npred) cfg.nbin)),
      (some (iouts.map (·.scalars.flux))),
      (some (iouts.map (·.scalars.npred)))),
     [⟨.mapDiff, .diff, dirs, fn0 cfg, cfg.ts_thresh, cfg.min_counts⟩,
      ⟨.mapInt, .int, dirs, fn0 cfg, cfg.ts_thresh, cfg.min_counts⟩])

/-- The differential solve at the target direction (line 173) and the
table built from it (lines 175-188); `e_min`/`e_max` come from
`scalc.ebins[:-1]` and `scalc.ebins[1:]`. -/
def targetDiffTable (cfg : Config) (env : Env) (sc : SCInputs) : TabDiff :=
  let o := env.diffSolve sc (target cfg) (fn0 cfg) cfg.ts_thresh cfg.min_counts
  { e_min := sc.ebins.dropLast
    e_ref := o.e_ref
    e_max := sc.ebins.tail
    flux := o.flux
    eflux := o.eflux
    dnde := o.dnde
    e2dnde := o.e2dnde
    npred := o.npred }

/-- One integral solve of the spectral-index scan (line 224):
`scalc.int_flux_threshold(c, fn, ts_thresh, 3.0)` — the final argument is
the literal `3.0`, not the configured `min_counts`. -/
def scanSolve (cfg : Config) (env : Env) (sc : SCInputs) (g : ℝ) : IntOut :=
  env.intSolve sc (target cfg) (scanFn g) cfg.ts_thresh 3

/-- Everything `run_flux_sensitivity` produces after the livetime-cube
step, in execution order. -/
structure RunResult where
  ebins : List ℝ
  ectr : List ℝ
  ltcUsed : LTCube
  ltcLoadedFinal : Option LTCube
  calls : List CallRec
  mapDiffFlux : Option (List (List ℝ))
  mapDiffNpred : Option (List (List ℝ))
  mapIntFlux : Option (List ℝ)
  mapIntNpred : Option (List ℝ)
  tabDiff : TabDiff
  tabInt : List IntRow
  tabIntEbin : List EbinRow
  scanned : List ℝ
  hdus : List Hdu

/-- Lines 124-264 of the script, given the livetime cube of lines
112-122.  `ltcLoadedFinal` is the final state of the object returned by
`LTCube.create` when a path was supplied: because line 121 rescales with
the in-place `ltc._counts *= ...`, that object and the cube handed to
`SensitivityCalc` are one and the same.  The leading unnamed section of
`hdus` is the primary HDU astropy prepends when a table is appended to an
empty `HDUList`. -/
def mkRun (cfg : Config) (env : Env) (ltc : LTCube) : RunResult :=
  let ebins := ebinsList cfg.emin cfg.emax cfg.nbin
  let ec := ectrList cfg.emin cfg.emax cfg.nbin
  let sc : SCInputs := ⟨ltc, ebins⟩
  let maps := (mapStep cfg env sc).1
  let mapCalls := (mapStep cfg env sc).2
  let tabDiff := targetDiffTable cfg env sc
  let tabInt := scanIndices.map (fun g => IntRow.mk g (scanSolve cfg env sc g).scalars)
  let tabIntEbin := scanIndices.map (fun g => EbinRow.mk g (scanSolve cfg env sc g).bins)
  let scanCalls := scanIndices.map
    (fun g => CallRec.mk (.scanInt g) .int [target cfg] (scanFn g) cfg.ts_thresh 3)
  let hdus : List Hdu :=
    [("", .primary),
     ("DIFF_FLUX", .tableDiff tabDiff),
     ("INT_FLUX", .tableInt tabInt),
     ("INT_FLUX_EBIN", .tableIntEbin tabIntEbin)] ++
    (match cfg.nside with
     | none => []
     | some _ =>
       [("MAP_DIFF_FLUX", .image2d ((maps.1).getD [])),
        ("MAP_DIFF_NPRED", .image2d ((maps.2.1).getD [])),
        ("MAP_INT_FLUX", .image1d ((maps.2.2.1).getD [])),
        ("MAP_INT_NPRED", .image1d ((maps.2.2.2).getD []))])
  { ebins := ebins
    ectr := ec
    ltcUsed := ltc
    ltcLoadedFinal := match cfg.ltcube with
      | some _ => some ltc
      | none => none
    calls := mapCalls ++
      [CallRec.mk .targetDiff .diff [target cfg] (fn0 cfg) cfg.ts_thresh cfg.min_counts] ++
      scanCalls
    mapDiffFlux := maps.1
    mapDiffNpred := maps.2.1
    mapIntFlux := maps.2.2.1
    mapIntNpred := maps.2.2.2
    tabDiff := tabDiff
    tabInt := tabInt
    tabIntEbin := tabIntEbin
    scanned := scanIndices
    hdus := hdus }

/-- `run_flux_sensitivity`: the livetime-cube step either raises the
configuration error or yields the cube every later component is built
from; nothing else is constructed and no solve is issued in the error
case. -/
def run (cfg : Config) (env : Env) : Except String RunResult :=
  match ltcubeStep cfg env with
  | none => .error "No observation time defined."
  | some ltc => .ok (mkRun cfg env ltc)

end

end FluxSens

namespace Plotting

noncomputable section

/-- State of a `PowerNorm` whose `vmin`/`vmax` are already set (so
`autoscale_None` at line 55 is a no-op). -/
structure PowerNorm where
  gamma : ℝ
  vmin : ℝ
  vmax : ℝ
  clip : Bool

/-- The arithmetic applied to `result.data` at lines 67-70:
`resdat -= vmin; np.power(resdat, gamma, resdat); resdat /= (vmax - vmin) ** gamma`. -/
def resdat (pn : PowerNorm) (v : ℝ) : ℝ :=
  ((v - pn.vmin) ^ pn.gamma) / ((pn.vmax - pn.vmin) ^ pn.gamma)

/-- `PowerNorm.__call__` (lines 49-75) on a masked array, each element a
value together with its mask flag.  The clipped array `val` built at
lines 64-66 is assigned to a local that is never read again, so the
effective `clip` flag (line 50-51) does not influence the returned data;
line 72 then zeroes every unmasked element whose original value is
negative. -/
def callList (pn : PowerNorm) (_clipArg : Option Bool) (vals : List (ℝ × Bool)) :
    Except String (List (ℝ × Bool)) :=
  if pn.vmax < pn.vmin then
    .error "minvalue must be less than or equal to maxvalue"
  else if pn.vmin = pn.vmax then
    .ok (vals.map (fun p => (0, p.2)))
  else
    .ok (vals.map (fun p =>
      (if p.1 < 0 ∧ p.2 = false then 0 else resdat pn p.1, p.2)))

/-- `__call__` on a Python scalar: `process_value` wraps it into a
one-element unmasked array and `is_scalar` makes line 74 return
`result[0]`. -/
def callScalar (pn : PowerNorm) (clipArg : Option Bool) (v : ℝ) :
    Except String ℝ :=
  (callList pn clipArg [(v, false)]).map (fun l => (l.headD (0, false)).1)

/-- Concrete instance used to test the claim: `gamma=1`, `vmin=-1`,
`vmax=1`, clipping enabled. -/
def pnEx : PowerNorm := ⟨1, -1, 1, true⟩

end

end Plotting

namespace FluxSens

noncomputable section

/-- Concrete collaborator environment for evaluating the driver on
explicit inputs: one livetime-cube bin with 2 seconds of counts spanning
`tstart=0 .. tstop=5`, a two-pixel tessellation, and a solver returning
zero thresholds shaped for two energy bins. -/
def envW : Env :=
  { createFromObsTime := fun t => ⟨[1], 0, t⟩
    loadLTCube := fun _ => ⟨[2], 0, 5⟩
    pixelDirs := fun _ => [⟨0, 0⟩, ⟨0, 1⟩]
    diffSolve := fun _ _ _ _ _ => ⟨[0, 0], [0, 0], [0, 0], [0, 0], [0, 0], [0, 0]⟩
    intSolve := fun _ _ _ _ _ =>
      ⟨⟨0, 0, 0, 0, 0, 0, 0, 0⟩,
       ⟨[0, 0], [0, 0], [0, 0], [0, 0], [0, 0], [0, 0], [0, 0], [0, 0]⟩⟩ }

/-- Base concrete configuration: two energy bins between 1 and 100 MeV,
a livetime-cube path, `min_counts = 5`, `ts_thresh = 25`, no map. -/
def cfgBase : Config :=
  { index := 2, emin := 1, emax := 100, nbin := 2, glon := 0, glat := 0
    ltcube := some "lt.fits", obs_time_yr := none
    min_counts := 5, ts_thresh := 25, nside := none }

/-- `cfgBase` with a requested observation time of 2 years. -/
def cfgObs : Config := { cfgBase with obs_time_yr := some 2 }

/-- `cfgBase` with a sky-map resolution requested. -/
def cfgMap : Config := { cfgBase with nside := some 1 }

/-- `cfgBase` with neither a livetime cube nor an observation time. -/
def cfgNone : Config := { cfgBase with ltcube := none, obs_time_yr := none }

/-- `cfgBase` with only an observation time and no livetime cube. -/
def cfgOnlyObs : Config := { cfgBase with ltcube := none, obs_time_yr := some 2 }

/-- The state of the loaded cube of `envW` after the in-place rescaling
of line 121 with a 2-year requested observation time. -/
def ltcObsScaled : LTCube :=
  ⟨[2 * ((2 : ℝ) * 365 * 24 * 3600 / (5 - 0))], 0, 5⟩

/-- Per-bin shape of an integral solve's breakdown: every quantity list
carries one value per energy bin. -/
def binsShaped (b : IntBins) (nbin : ℕ) : Prop :=
  b.e_min.length = nbin ∧ b.e_ref.length = nbin ∧ b.e_max.length = nbin ∧
  b.flux.length = nbin ∧ b.eflux.length = nbin ∧ b.dnde.length = nbin ∧
  b.e2dnde.length = nbin ∧ b.npred.length = nbin

end

end FluxSens

namespace FluxSens

open Real

theorem logEbinStep (emin emax : ℝ) (nbin i : ℕ) :
    log_ebin emin emax nbin (i + 1) - log_ebin emin emax nbin i =
      (Real.logb 10 emax - Real.logb 10 emin) / nbin := by
  simp only [log_ebin, linspace, Nat.add_sub_cancel]
  push_cast
  ring

theorem ebinPos (emin emax : ℝ) (nbin i : ℕ) : 0 < ebin emin emax nbin i :=
  Real.rpow_pos_of_pos (by norm_num) _

theorem ebinStrictStep (emin emax : ℝ) (nbin : ℕ) (i : ℕ)
    (h0 : 0 < emin) (h1 : emin < emax) (hn : 1 ≤ nbin) :
    ebin emin emax nbin i < ebin emin emax nbin (i + 1) := by
  have hab : Real.logb 10 emin < Real.logb 10 emax :=
    Real.logb_lt_logb (by norm_num) h0 h1
  have hnpos : (0 : ℝ) < (nbin : ℝ) := by
    exact_mod_cast Nat.lt_of_lt_of_le Nat.zero_lt_one hn
  have hstep := logEbinStep emin emax nbin i
  have hlt : log_ebin emin emax nbin i < log_ebin emin emax nbin (i + 1) := by
    have : 0 < (Real.logb 10 emax - Real.logb 10 emin) / nbin :=
      div_pos (by linarith) hnpos
    linarith
  exact (Real.rpow_lt_rpow_left_iff (by norm_num : (1 : ℝ) < 10)).2 hlt

theorem ebinZero (emin emax : ℝ) (nbin : ℕ) (h0 : 0 < emin) :
    ebin emin emax nbin 0 = emin := by
  have : log_ebin emin emax nbin 0 = Real.logb 10 emin := by
    simp [log_ebin, linspace]
  rw [ebin, this]
  exact Real.rpow_logb (by norm_num) (by norm_num) h0

theorem ebinLast (emin emax : ℝ) (nbin : ℕ) (h2 : 0 < emax) (hn : 1 ≤ nbin) :
    ebin emin emax nbin nbin = emax := by
  have hne : ((nbin : ℕ) : ℝ) ≠ 0 := Nat.cast_ne_zero.2 (by omega)
  have : log_ebin emin emax nbin nbin = Real.logb 10 emax := by
    simp only [log_ebin, linspace, Nat.add_sub_cancel]
    field_simp
  rw [ebin, this]
  exact Real.rpow_logb (by norm_num) (by norm_num) h2

theorem ectrEqSqrt (emin emax : ℝ) (nbin i : ℕ) :
    ectr emin emax nbin i =
      Real.sqrt (ebin emin emax nbin i * ebin emin emax nbin (i + 1)) := by
  set x := ebin emin emax nbin i with hxdef
  set y := ebin emin emax nbin (i + 1) with hydef
  have hx : 0 < x := ebinPos emin emax nbin i
  have hy : 0 < y := ebinPos emin emax nbin (i + 1)
  have hsq : ∀ z : ℝ, 0 < z → Real.sqrt z = Real.exp (Real.log z / 2) := by
    intro z hz
    rw [Real.sqrt_eq_rpow, Real.rpow_def_of_pos hz]
    congr 1
    ring
  rw [Real.sqrt_mul hx.le, hsq x hx, hsq y hy, ← Real.exp_add]
  rw [ectr, edge_to_center]
  congr 1
  ring

theorem sqrtGeomBetween (x y : ℝ) (hx : 0 < x) (hxy : x < y) :
    x < Real.sqrt (x * y) ∧ Real.sqrt (x * y) < y := by
  have hy : 0 < y := lt_trans hx hxy
  constructor
  · have h1 : x * x < x * y := mul_lt_mul_of_pos_left hxy hx
    have := Real.sqrt_lt_sqrt (mul_self_nonneg x) h1
    rwa [Real.sqrt_mul_self hx.le] at this
  · have h1 : x * y < y * y := mul_lt_mul_of_pos_right hxy hy
    have := Real.sqrt_lt_sqrt (by positivity) h1
    rwa [Real.sqrt_mul_self hy.le] at this

/-- C4: for every `emin > 0`, `emax > emin` and `nbin ≥ 1`, the energy
binning built by `run_flux_sensitivity` (lines 105-108) has `nbin + 1`
strictly increasing positive edges, logarithmically evenly spaced from
`emin` to `emax`; each bin center equals the geometric mean of its two
adjacent edges, hence lies strictly between them, and every bin width is
positive. -/
theorem claim_C4 (emin emax : ℝ) (nbin : ℕ)
    (h0 : 0 < emin) (h1 : emin < emax) (hn : 1 ≤ nbin) :
    (ebinsList emin emax nbin).length = nbin + 1 ∧
    ebin emin emax nbin 0 = emin ∧
    ebin emin emax nbin nbin = emax ∧
    (∀ i, i ≤ nbin → 0 < ebin emin emax nbin i) ∧
    (∀ i, i < nbin → ebin emin emax nbin i < ebin emin emax nbin (i + 1)) ∧
    (∀ i, i < nbin →
      log_ebin emin emax nbin (i + 1) - log_ebin emin emax nbin i =
        (Real.logb 10 emax - Real.logb 10 emin) / nbin) ∧
    (∀ i, i < nbin →
      ectr emin emax nbin i =
        Real.sqrt (ebin emin emax nbin i * ebin emin emax nbin (i + 1)) ∧
      ebin emin emax nbin i < ectr emin emax nbin i ∧
      ectr emin emax nbin i < ebin emin emax nbin (i + 1) ∧
      0 < ebin emin emax nbin (i + 1) - ebin emin emax nbin i) := by
  refine ⟨by simp [ebinsList], ebinZero emin emax nbin h0,
    ebinLast emin emax nbin (lt_trans h0 h1) hn,
    fun i _ => ebinPos emin emax nbin i,
    fun i _ => ebinStrictStep emin emax nbin i h0 h1 hn,
    fun i _ => logEbinStep emin emax nbin i, fun i _ => ?_⟩
  have hstep := ebinStrictStep emin emax nbin i h0 h1 hn
  have hpos := ebinPos emin emax nbin i
  have hbetween := sqrtGeomBetween _ _ hpos hstep
  refine ⟨ectrEqSqrt emin emax nbin i, ?_, ?_, by linarith⟩
  · rw [ectrEqSqrt emin emax nbin i]; exact hbetween.1
  · rw [ectrEqSqrt emin emax nbin i]; exact hbetween.2

/-- Witness for C4 at `emin = 1`, `emax = 10`, `nbin = 1`. -/
theorem claim_C4_witness :
    (0 : ℝ) < 1 ∧ (1 : ℝ) < 10 ∧ 1 ≤ 1 ∧
    (ebinsList 1 10 1).length = 1 + 1 ∧ ebin 1 10 1 0 = 1 ∧
    ectr 1 10 1 0 = Real.sqrt (ebin 1 10 1 0 * ebin 1 10 1 1) := by
  have h := claim_C4 1 10 1 (by norm_num) (by norm_num) (le_refl 1)
  exact ⟨by norm_num, by norm_num, le_refl 1, h.1, h.2.1,
    (h.2.2.2.2.2.2 0 (by norm_num)).1⟩

end FluxSens

namespace FluxSens

theorem run_ok_iff (cfg : Config) (env : Env) (r : RunResult) :
    run cfg env = .ok r ↔
      ∃ ltc, ltcubeStep cfg env = some ltc ∧ r = mkRun cfg env ltc := by
  unfold run
  cases h : ltcubeStep cfg env <;> simp [eq_comm]

theorem mkRun_calls (cfg : Config) (env : Env) (ltc : LTCube) :
    (mkRun cfg env ltc).calls =
      (mapStep cfg env ⟨ltc, ebinsList cfg.emin cfg.emax cfg.nbin⟩).2 ++
      [CallRec.mk .targetDiff .diff [target cfg] (fn0 cfg)
        cfg.ts_thresh cfg.min_counts] ++
      scanIndices.map (fun g =>
        CallRec.mk (.scanInt g) .int [target cfg] (scanFn g) cfg.ts_thresh 3) :=
  rfl

theorem mkRun_ltcUsed (cfg : Config) (env : Env) (ltc : LTCube) :
    (mkRun cfg env ltc).ltcUsed = ltc := rfl

theorem mkRun_scanned (cfg : Config) (env : Env) (ltc : LTCube) :
    (mkRun cfg env ltc).scanned = scanIndices := rfl

theorem mkRun_tabInt (cfg : Config) (env : Env) (ltc : LTCube) :
    (mkRun cfg env ltc).tabInt = scanIndices.map (fun g =>
      IntRow.mk g
        (scanSolve cfg env ⟨ltc, ebinsList cfg.emin cfg.emax cfg.nbin⟩ g).scalars) :=
  rfl

theorem mkRun_tabIntEbin (cfg : Config) (env : Env) (ltc : LTCube) :
    (mkRun cfg env ltc).tabIntEbin = scanIndices.map (fun g =>
      EbinRow.mk g
        (scanSolve cfg env ⟨ltc, ebinsList cfg.emin cfg.emax cfg.nbin⟩ g).bins) :=
  rfl

theorem mkRun_mapDiffFlux (cfg : Config) (env : Env) (ltc : LTCube) :
    (mkRun cfg env ltc).mapDiffFlux =
      (mapStep cfg env ⟨ltc, ebinsList cfg.emin cfg.emax cfg.nbin⟩).1.1 := rfl

theorem mkRun_mapDiffNpred (cfg : Config) (env : Env) (ltc : LTCube) :
    (mkRun cfg env ltc).mapDiffNpred =
      (mapStep cfg env ⟨ltc, ebinsList cfg.emin cfg.emax cfg.nbin⟩).1.2.1 := rfl

theorem mkRun_mapIntFlux (cfg : Config) (env : Env) (ltc : LTCube) :
    (mkRun cfg env ltc).mapIntFlux =
      (mapStep cfg env ⟨ltc, ebinsList cfg.emin cfg.emax cfg.nbin⟩).1.2.2.1 := rfl

theorem mkRun_mapIntNpred (cfg : Config) (env : Env) (ltc : LTCube) :
    (mkRun cfg env ltc).mapIntNpred =
      (mapStep cfg env ⟨ltc, ebinsList cfg.emin cfg.emax cfg.nbin⟩).1.2.2.2 := rfl

theorem mapStep_none (cfg : Config) (env : Env) (sc : SCInputs)
    (h : cfg.nside = none) :
    mapStep cfg env sc = ((none, none, none, none), []) := by
  unfold mapStep
  rw [h]

theorem mapStep_some (cfg : Config) (env : Env) (sc : SCInputs) (n : ℕ)
    (h : cfg.nside = some n) :
    mapStep cfg env sc =
      (((some (stackT ((env.pixelDirs n).map
          (fun d => env.diffSolve sc d (fn0 cfg) cfg.ts_thresh cfg.min_counts))
          (·.flux) cfg.nbin)),
        (some (stackT ((env.pixelDirs n).map
          (fun d => env.diffSolve sc d (fn0 cfg) cfg.ts_thresh cfg.min_counts))
          (·.npred) cfg.nbin)),
        (some (((env.pixelDirs n).map
          (fun d => env.intSolve sc d (fn0 cfg) cfg.ts_thresh cfg.min_counts)).map
            (·.scalars.flux))),
        (some (((env.pixelDirs n).map
          (fun d => env.intSolve sc d (fn0 cfg) cfg.ts_thresh cfg.min_counts)).map
            (·.scalars.npred)))),
       [⟨.mapDiff, .diff, env.pixelDirs n, fn0 cfg, cfg.ts_thresh, cfg.min_counts⟩,
        ⟨.mapInt, .int, env.pixelDirs n, fn0 cfg, cfg.ts_thresh, cfg.min_counts⟩]) := by
  unfold mapStep
  rw [h]

/-- C1: when both a livetime-cube path and an observation time are
supplied, the cube the run is built from is the loaded cube with every
count multiplied by `obs_time_yr * 365 * 24 * 3600 / (tstop - tstart)`
(lines 120-122); when only the cube is supplied, the counts are left
unscaled (line 119). -/
theorem claim_C1 (cfg : Config) (env : Env) (p : String)
    (hp : cfg.ltcube = some p) :
    (∀ t, cfg.obs_time_yr = some t →
      run cfg env = .ok (mkRun cfg env
        { env.loadLTCube p with
          counts := (env.loadLTCube p).counts.map
            (fun c => c * (t * 365 * 24 * 3600 /
              ((env.loadLTCube p).tstop - (env.loadLTCube p).tstart))) })) ∧
    (cfg.obs_time_yr = none →
      run cfg env = .ok (mkRun cfg env (env.loadLTCube p))) := by
  constructor
  · intro t ht
    simp [run, ltcubeStep, hp, ht]
  · intro ht
    simp [run, ltcubeStep, hp, ht]

/-- Witness for C1 at the concrete configuration `cfgObs` (2-year
requested time) and environment `envW`, and at `cfgBase` (no requested
time). -/
theorem claim_C1_witness :
    run cfgObs envW = .ok (mkRun cfgObs envW
      { envW.loadLTCube "lt.fits" with
        counts := (envW.loadLTCube "lt.fits").counts.map
          (fun c => c * ((2 : ℝ) * 365 * 24 * 3600 /
            ((envW.loadLTCube "lt.fits").tstop -
             (envW.loadLTCube "lt.fits").tstart))) }) ∧
    run cfgBase envW = .ok (mkRun cfgBase envW (envW.loadLTCube "lt.fits")) :=
  ⟨(claim_C1 cfgObs envW "lt.fits" rfl).1 2 rfl,
   (claim_C1 cfgBase envW "lt.fits" rfl).2 rfl⟩

/-- C3: `run_flux_sensitivity` raises `'No observation time defined.'`
exactly when neither a livetime-cube path nor an observation time is
supplied; the error is raised by the livetime-cube step itself (lines
112-115), before the exposure, background or solver collaborators are
constructed and before any solve is issued — in the model `run` returns
the error without building `mkRun`.  When at least one of the two inputs
is present the run constructs a result instead. -/
theorem claim_C3 (cfg : Config) (env : Env) :
    (run cfg env = .error "No observation time defined." ↔
      cfg.ltcube = none ∧ cfg.obs_time_yr = none) ∧
    ((cfg.ltcube ≠ none ∨ cfg.obs_time_yr ≠ none) →
      ∃ r, run cfg env = .ok r) := by
  cases hl : cfg.ltcube <;> cases ho : cfg.obs_time_yr <;>
    simp [run, ltcubeStep, hl, ho]

/-- Witness for C3: the error fires at `cfgNone` (neither input) and does
not fire at `cfgOnlyObs` (observation time only). -/
theorem claim_C3_witness :
    run cfgNone envW = .error "No observation time defined." ∧
    ∃ r, run cfgOnlyObs envW = .ok r :=
  ⟨(claim_C3 cfgNone envW).1.mpr ⟨rfl, rfl⟩,
   (claim_C3 cfgOnlyObs envW).2 (Or.inr (by simp [cfgOnlyObs, cfgBase]))⟩

end FluxSens

/-- C10: every option entry of the ten configuration dictionaries of
`fermipy/defaults.py` is a tuple of a default value and a description
string, optionally followed by a container type, and nothing else. -/
theorem claim_C10 :
    (Defaults.allDicts.all
      (fun d => d.all (fun kv => Defaults.wellShaped kv.2))) = true := by
  decide

namespace FluxSens

theorem scanIndices_expand :
    scanIndices = (List.range 17).map (fun i => linspace 1 5 17 i) := rfl

theorem scanIndices_length : scanIndices.length = 17 := by
  simp [scanIndices]

theorem scanIndices_head : scanIndices.head? = some 1 := by
  rw [show scanIndices = linspace 1 5 17 0 ::
    (List.range' 1 16).map (fun i => linspace 1 5 17 i) from rfl]
  simp [linspace]

theorem scanIndices_last : scanIndices.getLast? = some 5 := by
  rw [show scanIndices.getLast? = some (linspace 1 5 17 16) from rfl]
  have : linspace 1 5 17 16 = 5 := by
    simp [linspace]
  rw [this]

/-- C5: the integral-mode scan runs over the 17 spectral indices
`np.linspace(1.0, 5.0, 17)` (so from 1.0 to 5.0), produces exactly one
`tab_int` row and one `tab_int_ebin` row per scanned index, and — given
that the solver's per-bin breakdown lists carry one value per energy bin,
as the fixed-shape astropy columns of lines 200-215 require — every
breakdown row carries one value per energy bin in each quantity column. -/
theorem claim_C5 (cfg : Config) (env : Env) (r : RunResult)
    (h : run cfg env = .ok r)
    (hwf : ∀ sc d fn ts mc, binsShaped (env.intSolve sc d fn ts mc).bins cfg.nbin) :
    r.scanned = scanIndices ∧
    r.scanned.length = 17 ∧
    r.scanned.head? = some 1 ∧
    r.scanned.getLast? = some 5 ∧
    r.tabInt.length = r.scanned.length ∧
    r.tabIntEbin.length = r.scanned.length ∧
    r.tabInt.map (fun row => row.index) = r.scanned ∧
    r.tabIntEbin.map (fun row => row.index) = r.scanned ∧
    (∀ row ∈ r.tabIntEbin, binsShaped row.bins cfg.nbin) := by
  obtain ⟨ltc, hstep, hr⟩ := (run_ok_iff cfg env r).1 h
  subst hr
  refine ⟨mkRun_scanned cfg env ltc, ?_, ?_, ?_, ?_, ?_, ?_, ?_, ?_⟩
  · rw [mkRun_scanned]; exact scanIndices_length
  · rw [mkRun_scanned]; exact scanIndices_head
  · rw [mkRun_scanned]; exact scanIndices_last
  · rw [mkRun_tabInt, mkRun_scanned]; simp
  · rw [mkRun_tabIntEbin, mkRun_scanned]; simp
  · rw [mkRun_tabInt, mkRun_scanned, List.map_map]
    exact List.map_id'' (fun x => rfl) scanIndices
  · rw [mkRun_tabIntEbin, mkRun_scanned, List.map_map]
    exact List.map_id'' (fun x => rfl) scanIndices
  · rw [mkRun_tabIntEbin]
    intro row hrow
    simp only [List.mem_map] at hrow
    obtain ⟨g, _, rfl⟩ := hrow
    exact hwf _ _ _ _ _

/-- Witness for C5 at `cfgBase` and `envW`. -/
theorem claim_C5_witness :
    run cfgBase envW = .ok (mkRun cfgBase envW (envW.loadLTCube "lt.fits")) ∧
    (mkRun cfgBase envW (envW.loadLTCube "lt.fits")).tabInt.length =
      (mkRun cfgBase envW (envW.loadLTCube "lt.fits")).scanned.length ∧
    (mkRun cfgBase envW (envW.loadLTCube "lt.fits")).tabIntEbin.length =
      (mkRun cfgBase envW (envW.loadLTCube "lt.fits")).scanned.length ∧
    (mkRun cfgBase envW (envW.loadLTCube "lt.fits")).scanned.head? = some 1 ∧
    (mkRun cfgBase envW (envW.loadLTCube "lt.fits")).scanned.getLast? = some 5 := by
  have h := claim_C5 cfgBase envW (mkRun cfgBase envW (envW.loadLTCube "lt.fits"))
    rfl (by intro sc d fn ts mc; exact ⟨rfl, rfl, rfl, rfl, rfl, rfl, rfl, rfl⟩)
  exact ⟨rfl, h.2.2.2.2.1, h.2.2.2.2.2.1, h.2.2.1, h.2.2.2.1⟩

end FluxSens

namespace FluxSens

/-- C6: with no `nside`, no sky map is allocated and every Threshold
Solver invocation is evaluated at the single target direction only; with
`nside` supplied, the four maps are built and the solver is additionally
evaluated — in one differential and one integral vectorised call — at
every pixel-center direction of the tessellation. -/
theorem claim_C6 (cfg : Config) (env : Env) (r : RunResult)
    (h : run cfg env = .ok r) :
    (cfg.nside = none →
      r.mapDiffFlux = none ∧ r.mapDiffNpred = none ∧
      r.mapIntFlux = none ∧ r.mapIntNpred = none ∧
      ∀ c ∈ r.calls, c.dirs = [target cfg]) ∧
    (∀ n, cfg.nside = some n →
      r.mapDiffFlux.isSome = true ∧ r.mapDiffNpred.isSome = true ∧
      r.mapIntFlux.isSome = true ∧ r.mapIntNpred.isSome = true ∧
      (∃ c ∈ r.calls, c.mode = .diff ∧ c.dirs = env.pixelDirs n) ∧
      (∃ c ∈ r.calls, c.mode = .int ∧ c.dirs = env.pixelDirs n)) := by
  obtain ⟨ltc, hstep, hr⟩ := (run_ok_iff cfg env r).1 h
  subst hr
  constructor
  · intro hn
    have hms := mapStep_none cfg env
      ⟨ltc, ebinsList cfg.emin cfg.emax cfg.nbin⟩ hn
    refine ⟨?_, ?_, ?_, ?_, ?_⟩
    · rw [mkRun_mapDiffFlux, hms]
    · rw [mkRun_mapDiffNpred, hms]
    · rw [mkRun_mapIntFlux, hms]
    · rw [mkRun_mapIntNpred, hms]
    · intro c hc
      rw [mkRun_calls, hms] at hc
      simp only [List.nil_append, List.mem_append, List.mem_singleton,
        List.mem_map] at hc
      rcases hc with rfl | ⟨g, _, rfl⟩ <;> rfl
  · intro n hn
    have hms := mapStep_some cfg env
      ⟨ltc, ebinsList cfg.emin cfg.emax cfg.nbin⟩ n hn
    refine ⟨?_, ?_, ?_, ?_, ?_, ?_⟩
    · rw [mkRun_mapDiffFlux, hms]; rfl
    · rw [mkRun_mapDiffNpred, hms]; rfl
    · rw [mkRun_mapIntFlux, hms]; rfl
    · rw [mkRun_mapIntNpred, hms]; rfl
    · refine ⟨⟨.mapDiff, .diff, env.pixelDirs n, fn0 cfg,
        cfg.ts_thresh, cfg.min_counts⟩, ?_, rfl, rfl⟩
      rw [mkRun_calls, hms]
      simp
    · refine ⟨⟨.mapInt, .int, env.pixelDirs n, fn0 cfg,
        cfg.ts_thresh, cfg.min_counts⟩, ?_, rfl, rfl⟩
      rw [mkRun_calls, hms]
      simp

/-- Witness for C6: the fast path at `cfgBase` (no resolution) and the
map path at `cfgMap` (`nside = 1`). -/
theorem claim_C6_witness :
    (mkRun cfgBase envW (envW.loadLTCube "lt.fits")).mapDiffFlux = none ∧
    (mkRun cfgMap envW (envW.loadLTCube "lt.fits")).mapDiffFlux.isSome = true ∧
    (∃ c ∈ (mkRun cfgMap envW (envW.loadLTCube "lt.fits")).calls,
      c.mode = .diff ∧ c.dirs = envW.pixelDirs 1) :=
  ⟨((claim_C6 cfgBase envW _ rfl).1 rfl).1,
   ((claim_C6 cfgMap envW _ rfl).2 1 rfl).1,
   ((claim_C6 cfgMap envW _ rfl).2 1 rfl).2.2.2.2.1⟩

/-- C2 is violated by the code: line 224 calls
`scalc.int_flux_threshold(c, fn, ts_thresh, 3.0)` with the literal `3.0`
as the count threshold, so with `min_counts = 5` the scan's solver calls
do not receive the configured pair — refuted here at `cfgBase`/`envW`. -/
theorem claim_C2_counterexample :
    ¬ (∀ r, run cfgBase envW = .ok r →
        ∀ c ∈ r.calls, c.ts_thresh = cfgBase.ts_thresh ∧
          c.min_counts = cfgBase.min_counts) := by
  intro hcl
  have hrun : run cfgBase envW =
      .ok (mkRun cfgBase envW (envW.loadLTCube "lt.fits")) := rfl
  have h0 : (0 : ℕ) ∈ List.range 17 := by simp
  have h1 : linspace 1 5 17 0 ∈ scanIndices := by
    rw [scanIndices_expand]
    exact List.mem_map_of_mem _ h0
  have h2 : (CallRec.mk (.scanInt (linspace 1 5 17 0)) .int [target cfgBase]
      (scanFn (linspace 1 5 17 0)) cfgBase.ts_thresh 3) ∈
      (mkRun cfgBase envW (envW.loadLTCube "lt.fits")).calls := by
    rw [mkRun_calls]
    exact List.mem_append.2 (Or.inr (List.mem_map_of_mem _ h1))
  have h5 := (hcl _ hrun _ h2).2
  simp only [cfgBase] at h5
  norm_num at h5

/-- C2 amended: every solver call receives the configured `ts_thresh`;
the target differential solve and the two per-pixel map solves receive
the configured `min_counts`, but each integral solve of the
spectral-index scan receives the literal count threshold `3.0` instead. -/
theorem claim_C2_amended (cfg : Config) (env : Env) (r : RunResult)
    (h : run cfg env = .ok r) :
    (∀ c ∈ r.calls, c.ts_thresh = cfg.ts_thresh) ∧
    (∀ c ∈ r.calls,
      (c.site = .mapDiff ∨ c.site = .mapInt ∨ c.site = .targetDiff) →
      c.min_counts = cfg.min_counts) ∧
    (∀ c ∈ r.calls, ∀ g, c.site = .scanInt g → c.min_counts = 3) := by
  obtain ⟨ltc, hstep, hr⟩ := (run_ok_iff cfg env r).1 h
  subst hr
  have hM : ∀ c ∈ (mapStep cfg env
      ⟨ltc, ebinsList cfg.emin cfg.emax cfg.nbin⟩).2,
      c.ts_thresh = cfg.ts_thresh ∧ c.min_counts = cfg.min_counts ∧
      (c.site = .mapDiff ∨ c.site = .mapInt) := by
    cases hn : cfg.nside with
    | none =>
      rw [mapStep_none cfg env _ hn]
      intro c hc
      simp at hc
    | some n =>
      rw [mapStep_some cfg env _ n hn]
      intro c hc
      simp only [List.mem_cons, List.not_mem_nil, or_false] at hc
      rcases hc with rfl | rfl
      · exact ⟨rfl, rfl, Or.inl rfl⟩
      · exact ⟨rfl, rfl, Or.inr rfl⟩
  refine ⟨?_, ?_, ?_⟩ <;>
    · intro c hc
      rw [mkRun_calls] at hc
      simp only [List.mem_append, List.mem_singleton, List.mem_map] at hc
      rcases hc with (hm | rfl) | ⟨g, _, rfl⟩
      · first
        | exact (hM c hm).1
        | · intro _
            exact (hM c hm).2.1
        | · intro g habs
            rcases (hM c hm).2.2 with hs | hs <;> rw [hs] at habs <;>
              simp at habs
      · first
        | rfl
        | · intro _
            rfl
        | · intro g habs
            simp at habs
      · first
        | rfl
        | · intro hsite
            rcases hsite with hs | hs | hs <;> simp at hs
        | · intro g2 _
            rfl

/-- Witness for the amended C2 at `cfgBase`/`envW`. -/
theorem claim_C2_witness :
    run cfgBase envW = .ok (mkRun cfgBase envW (envW.loadLTCube "lt.fits")) ∧
    (CallRec.mk CallSite.targetDiff CallMode.diff [target cfgBase] (fn0 cfgBase)
      cfgBase.ts_thresh cfgBase.min_counts).ts_thresh = cfgBase.ts_thresh := by
  refine ⟨rfl, (claim_C2_amended cfgBase envW _ rfl).1 _ ?_⟩
  rw [mkRun_calls, mapStep_none cfgBase envW _ rfl]
  simp

end FluxSens

namespace FluxSens

theorem mkRun_hdus (cfg : Config) (env : Env) (ltc : LTCube) :
    (mkRun cfg env ltc).hdus =
      [("", .primary),
       ("DIFF_FLUX", .tableDiff (targetDiffTable cfg env
          ⟨ltc, ebinsList cfg.emin cfg.emax cfg.nbin⟩)),
       ("INT_FLUX", .tableInt (scanIndices.map (fun g => IntRow.mk g
          (scanSolve cfg env ⟨ltc, ebinsList cfg.emin cfg.emax cfg.nbin⟩
            g).scalars))),
       ("INT_FLUX_EBIN", .tableIntEbin (scanIndices.map (fun g => EbinRow.mk g
          (scanSolve cfg env ⟨ltc, ebinsList cfg.emin cfg.emax cfg.nbin⟩
            g).bins)))] ++
      (match cfg.nside with
       | none => []
       | some _ =>
         [("MAP_DIFF_FLUX", .image2d
            (((mapStep cfg env ⟨ltc, ebinsList cfg.emin cfg.emax
              cfg.nbin⟩).1.1).getD [])),
          ("MAP_DIFF_NPRED", .image2d
            (((mapStep cfg env ⟨ltc, ebinsList cfg.emin cfg.emax
              cfg.nbin⟩).1.2.1).getD [])),
          ("MAP_INT_FLUX", .image1d
            (((mapStep cfg env ⟨ltc, ebinsList cfg.emin cfg.emax
              cfg.nbin⟩).1.2.2.1).getD [])),
          ("MAP_INT_NPRED", .image1d
            (((mapStep cfg env ⟨ltc, ebinsList cfg.emin cfg.emax
              cfg.nbin⟩).1.2.2.2).getD []))]) :=
  rfl

theorem stackT_length_sum (outs : List DiffOut) (f : DiffOut → List ℝ)
    (nbin : ℕ) :
    ((stackT outs f nbin).map List.length).sum = nbin * outs.length := by
  unfold stackT
  rw [List.map_map]
  have h : (List.length ∘ fun b => outs.map (fun o => (f o).getD b 0)) =
      fun _ => outs.length := by
    funext b
    simp
  rw [h, List.map_const', List.sum_const_nat, List.length_range]

/-- C7 amended: the output file always holds the three table sections
`DIFF_FLUX`, `INT_FLUX`, `INT_FLUX_EBIN` in that order (after the
primary HDU), and exactly when `nside` is supplied it additionally holds
the four map sections `MAP_DIFF_FLUX`, `MAP_DIFF_NPRED`, `MAP_INT_FLUX`,
`MAP_INT_NPRED`; the two integral maps carry one value per pixel of the
tessellation, while the two differential maps carry one value per pixel
for each energy bin (`nbin * npix` values). -/
theorem claim_C7_amended (cfg : Config) (env : Env) (r : RunResult)
    (h : run cfg env = .ok r) :
    (cfg.nside = none →
      r.hdus.map Prod.fst = ["", "DIFF_FLUX", "INT_FLUX", "INT_FLUX_EBIN"]) ∧
    (∀ n, cfg.nside = some n →
      r.hdus.map Prod.fst =
        ["", "DIFF_FLUX", "INT_FLUX", "INT_FLUX_EBIN",
         "MAP_DIFF_FLUX", "MAP_DIFF_NPRED", "MAP_INT_FLUX",
         "MAP_INT_NPRED"] ∧
      (r.hdus[4]?).map (fun s => hduValueCount s.2) =
        some (cfg.nbin * (env.pixelDirs n).length) ∧
      (r.hdus[5]?).map (fun s => hduValueCount s.2) =
        some (cfg.nbin * (env.pixelDirs n).length) ∧
      (r.hdus[6]?).map (fun s => hduValueCount s.2) =
        some ((env.pixelDirs n).length) ∧
      (r.hdus[7]?).map (fun s => hduValueCount s.2) =
        some ((env.pixelDirs n).length)) := by
  obtain ⟨ltc, hstep, hr⟩ := (run_ok_iff cfg env r).1 h
  subst hr
  constructor
  · intro hn
    rw [mkRun_hdus]
    simp [hn]
  · intro n hn
    rw [mkRun_hdus]
    have hms := mapStep_some cfg env
      ⟨ltc, ebinsList cfg.emin cfg.emax cfg.nbin⟩ n hn
    simp only [hn, hms]
    refine ⟨by simp, ?_, ?_, ?_, ?_⟩ <;>
      simp [hduValueCount, stackT_length_sum]

/-- C7 fails as stated: at `cfgMap` (`nbin = 2`, `nside = 1`) with the
two-pixel tessellation of `envW`, the `MAP_DIFF_FLUX` section holds
`nbin * npix = 4` values, not one value per pixel. -/
theorem claim_C7_counterexample :
    ¬ (∀ r, run cfgMap envW = .ok r →
        (r.hdus[4]?).map (fun s => hduValueCount s.2) =
          some ((envW.pixelDirs 1).length)) := by
  intro hcl
  have h4 := hcl (mkRun cfgMap envW (envW.loadLTCube "lt.fits")) rfl
  rw [show ((mkRun cfgMap envW
      (envW.loadLTCube "lt.fits")).hdus[4]?).map
      (fun s => hduValueCount s.2) = some 4 from rfl] at h4
  rw [show (envW.pixelDirs 1).length = 2 from rfl] at h4
  simp at h4

/-- Witness for the amended C7 at `cfgBase` (tables only) and `cfgMap`
(tables plus maps over the two-pixel tessellation of `envW`). -/
theorem claim_C7_witness :
    (mkRun cfgBase envW (envW.loadLTCube "lt.fits")).hdus.map Prod.fst =
      ["", "DIFF_FLUX", "INT_FLUX", "INT_FLUX_EBIN"] ∧
    (mkRun cfgMap envW (envW.loadLTCube "lt.fits")).hdus.map Prod.fst =
      ["", "DIFF_FLUX", "INT_FLUX", "INT_FLUX_EBIN",
       "MAP_DIFF_FLUX", "MAP_DIFF_NPRED", "MAP_INT_FLUX", "MAP_INT_NPRED"] ∧
    ((mkRun cfgMap envW (envW.loadLTCube "lt.fits")).hdus[6]?).map
      (fun s => hduValueCount s.2) = some ((envW.pixelDirs 1).length) :=
  ⟨(claim_C7_amended cfgBase envW _ rfl).1 rfl,
   ((claim_C7_amended cfgMap envW _ rfl).2 1 rfl).1,
   ((claim_C7_amended cfgMap envW _ rfl).2 1 rfl).2.2.2.1⟩

theorem mkRun_ltcLoadedFinal (cfg : Config) (env : Env) (ltc : LTCube) :
    (mkRun cfg env ltc).ltcLoadedFinal =
      match cfg.ltcube with
      | some _ => some ltc
      | none => none := rfl

/-- C8 fails as stated: line 121 rescales with the in-place
`ltc._counts *= ...`, mutating the object `LTCube.create` returned.  At
`cfgObs`/`envW` the loaded cube's counts `[2]` become `[25228800]` after
the rescaling step, so the loaded object is not left unchanged. -/
theorem claim_C8_counterexample :
    ¬ (∀ r, run cfgObs envW = .ok r →
        ∀ c, r.ltcLoadedFinal = some c →
          c.counts = (envW.loadLTCube "lt.fits").counts) := by
  intro hcl
  have hrun : run cfgObs envW = .ok (mkRun cfgObs envW ltcObsScaled) := rfl
  have hfin : (mkRun cfgObs envW ltcObsScaled).ltcLoadedFinal =
      some ltcObsScaled := rfl
  have h := hcl _ hrun ltcObsScaled hfin
  rw [show ltcObsScaled.counts =
      [2 * ((2 : ℝ) * 365 * 24 * 3600 / (5 - 0))] from rfl] at h
  rw [show (envW.loadLTCube "lt.fits").counts = [(2 : ℝ)] from rfl] at h
  simp only [List.cons.injEq, and_true] at h
  norm_num at h

/-- C8 amended: rescaling does not produce a derived instance — it
mutates the loaded livetime cube in place: after the rescaling step the
originally loaded cube object holds the original counts multiplied by
`requested_time / (tstop - tstart)`, and the cube consumed by the solver
is that very object. -/
theorem claim_C8_amended (cfg : Config) (env : Env) (p : String) (t : ℝ)
    (r : RunResult) (hp : cfg.ltcube = some p)
    (ht : cfg.obs_time_yr = some t) (h : run cfg env = .ok r) :
    r.ltcLoadedFinal = some r.ltcUsed ∧
    r.ltcLoadedFinal = some
      { env.loadLTCube p with
        counts := (env.loadLTCube p).counts.map
          (fun c => c * (t * 365 * 24 * 3600 /
            ((env.loadLTCube p).tstop - (env.loadLTCube p).tstart))) } := by
  obtain ⟨ltc, hstep, hr⟩ := (run_ok_iff cfg env r).1 h
  subst hr
  simp only [ltcubeStep, hp, ht, Option.some.injEq] at hstep
  constructor
  · rw [mkRun_ltcLoadedFinal, mkRun_ltcUsed, hp]
  · rw [mkRun_ltcLoadedFinal, hp, ← hstep]

/-- Witness for the amended C8 at `cfgObs`/`envW`. -/
theorem claim_C8_witness :
    (mkRun cfgObs envW ltcObsScaled).ltcLoadedFinal =
      some (mkRun cfgObs envW ltcObsScaled).ltcUsed :=
  (claim_C8_amended cfgObs envW "lt.fits" 2 _ rfl rfl rfl).1

end FluxSens


namespace Plotting

/-- C9 fails as stated: at `gamma=1`, `vmin=-1`, `vmax=1` with clipping
enabled, the unmasked in-range value `-1/2 ∈ [vmin, vmax]` is mapped to
`0` by line 72, not to `((v - vmin)^gamma)/((vmax - vmin)^gamma) = 1/4`:
the two clauses of the claim overlap on negative in-range values and the
negative-to-zero rule wins. -/
theorem claim_C9_counterexample :
    ¬ (callList pnEx (some true) [(-(1/2 : ℝ), false)] =
        .ok [(((-(1/2 : ℝ)) - pnEx.vmin) ^ pnEx.gamma /
          ((pnEx.vmax - pnEx.vmin) ^ pnEx.gamma), false)]) := by
  intro h
  norm_num [callList, pnEx, resdat, Real.rpow_one] at h

/-- C9 amended: for `vmin < vmax`, `__call__` succeeds; every unmasked
negative element maps to exactly `0`, every unmasked non-negative element
of `[vmin, vmax]` maps to `((v - vmin)^gamma)/((vmax - vmin)^gamma)`, and
a scalar input yields the corresponding scalar result. -/
theorem claim_C9_amended (pn : PowerNorm) (ca : Option Bool)
    (vals : List (ℝ × Bool)) (h : pn.vmin < pn.vmax) :
    (∃ l, callList pn ca vals = .ok l ∧
      l.length = vals.length ∧
      ∀ (i : ℕ) (v : ℝ), vals[i]? = some (v, false) →
        (v < 0 → l[i]? = some (0, false)) ∧
        (0 ≤ v → pn.vmin ≤ v → v ≤ pn.vmax →
          l[i]? = some ((v - pn.vmin) ^ pn.gamma /
            (pn.vmax - pn.vmin) ^ pn.gamma, false))) ∧
    (∀ v : ℝ, callScalar pn ca v =
      .ok (if v < 0 then (0 : ℝ) else
        (v - pn.vmin) ^ pn.gamma / (pn.vmax - pn.vmin) ^ pn.gamma)) := by
  have h1 : ¬ (pn.vmax < pn.vmin) := not_lt.2 h.le
  have h2 : ¬ (pn.vmin = pn.vmax) := ne_of_lt h
  constructor
  · refine ⟨vals.map (fun p =>
      (if p.1 < 0 ∧ p.2 = false then 0 else resdat pn p.1, p.2)),
      ?_, by simp, ?_⟩
    · simp only [callList, if_neg h1, if_neg h2]
    · intro i v hv
      constructor
      · intro hneg
        simp only [List.getElem?_map, hv, Option.map_some']
        simp [hneg]
      · intro hnn hlo hhi
        simp only [List.getElem?_map, hv, Option.map_some']
        simp [not_lt.2 hnn, resdat]
  · intro v
    by_cases hv : v < 0
    · simp only [callScalar, callList, if_neg h1, if_neg h2,
        List.map_cons, List.map_nil]
      simp [Except.map, hv]
    · simp only [callScalar, callList, if_neg h1, if_neg h2,
        List.map_cons, List.map_nil]
      simp [Except.map, hv, resdat]

/-- Witness for the amended C9: `gamma = 2`, `vmin = 0`, `vmax = 1`,
scalar input `1/2`. -/
theorem claim_C9_witness :
    (PowerNorm.mk 2 0 1 true).vmin < (PowerNorm.mk 2 0 1 true).vmax ∧
    callScalar (PowerNorm.mk 2 0 1 true) none (1/2) =
      .ok (if (1/2 : ℝ) < 0 then (0 : ℝ) else
        ((1/2 : ℝ) - (PowerNorm.mk 2 0 1 true).vmin) ^
          (PowerNorm.mk 2 0 1 true).gamma /
        ((PowerNorm.mk 2 0 1 true).vmax - (PowerNorm.mk 2 0 1 true).vmin) ^
          (PowerNorm.mk 2 0 1 true).gamma) :=
  ⟨by norm_num, (claim_C9_amended (PowerNorm.mk 2 0 1 true) none []
    (by norm_num)).2 (1/2)⟩

end Plotting
